import Mathlib

/-
Verification of scripts/build_models.py (VoiceBoard Model Builder).

The script is sequential I/O over the filesystem and the network.  We embed
it shallowly:

  * the filesystem is a map from path to file size in bytes (file contents
    never matter to the program, only sizes and existence);
  * the network is a map from URL to an optional byte count: some s means
    the streaming GET completes and writes s bytes, none means any failure
    (non-2xx status, connection error, mid-stream exception);
  * Python float arithmetic on sizes is modelled exactly over the rationals.

Every definition mirrors the corresponding Python function; names follow the
source where Lean allows it.
-/

/-- Filesystem state: maps a file path to the size in bytes of the file
stored there, or none when no file exists at that path. -/
def FS : Type := String → Option Nat

/-- Network state: maps a URL to the number of bytes a streaming GET of it
delivers, or none when the request fails in any way. -/
def Net : Type := String → Option Nat

/-- Empty filesystem: no file exists at any path. -/
def FS.empty : FS := fun _ => none

/-- Writing a file: the path now holds a file of the given size. -/
def FS.set (fs : FS) (p : String) (s : Nat) : FS :=
  fun q => if q = p then some s else fs q

/-- Unlinking a file, as Path.unlink does. -/
def FS.erase (fs : FS) (p : String) : FS :=
  fun q => if q = p then none else fs q

/-- One catalog entry of the MODELS table: original and ggml URLs, the
expected size in megabytes and a human description. -/
structure ModelInfo where
  original : String
  ggml : String
  size_mb : Int
  description : String

/-- Catalog data of the tiny.en model. -/
def tiny_en : ModelInfo :=
  { original := "https://openaipublic.azureedge.net/main/whisper/models/d3dd57d32accea0b295c96e26691aa14d8822fac7d9d27d5dc00b4ca2826dd03/tiny.en.pt"
    ggml := "https://huggingface.co/ggerganov/whisper.cpp/resolve/main/ggml-tiny.en-q5_1.bin"
    size_mb := 39
    description := "Fastest, lowest accuracy - good for testing" }

/-- Catalog data of the base.en model. -/
def base_en : ModelInfo :=
  { original := "https://openaipublic.azureedge.net/main/whisper/models/25a8566e1d0c1e2231d1c762132cd20e0f96a85d16145c3a00adf5d1ac670ead/base.en.pt"
    ggml := "https://huggingface.co/ggerganov/whisper.cpp/resolve/main/ggml-base.en-q5_1.bin"
    size_mb := 148
    description := "Balanced speed and accuracy - recommended default" }

/-- Catalog data of the small.en model. -/
def small_en : ModelInfo :=
  { original := "https://openaipublic.azureedge.net/main/whisper/models/f953ad0fd29cacd07d5a9eda5624af0f6bcf2258be67c92b79389873d91e0872/small.en.pt"
    ggml := "https://huggingface.co/ggerganov/whisper.cpp/resolve/main/ggml-small.en-q5_1.bin"
    size_mb := 244
    description := "Slower, higher accuracy - for powerful devices" }

/-- The static MODELS catalog of build_models.py, in its defined order. -/
def MODELS : List (String × ModelInfo) :=
  [("tiny.en", tiny_en), ("base.en", base_en), ("small.en", small_en)]

/-- Default tolerance of verify_file_size (the Python default argument 0.1). -/
def default_tolerance : ℚ := 1 / 10

/-- Embedding of verify_file_size: returns False when the file does not
exist; otherwise converts the byte size to megabytes and checks membership
in the closed interval between expected_size_mb * (1 - tolerance) and
expected_size_mb * (1 + tolerance). -/
def verify_file_size (fs : FS) (filepath : String) (expected_size_mb : Int)
    (tolerance : ℚ) : Bool :=
  match fs filepath with
  | none => false
  | some size =>
    let actual_size_mb : ℚ := (size : ℚ) / (1024 * 1024)
    let expected_min : ℚ := (expected_size_mb : ℚ) * (1 - tolerance)
    let expected_max : ℚ := (expected_size_mb : ℚ) * (1 + tolerance)
    decide (expected_min ≤ actual_size_mb ∧ actual_size_mb ≤ expected_max)

/-- Embedding of download_file: on a successful GET the response body is
streamed to the destination path (the file now has the downloaded size) and
True is returned; on any failure the except branch runs, which unlinks the
destination path when a file exists there, and False is returned. -/
def download_file (net : Net) (fs : FS) (url : String) (filepath : String) :
    FS × Bool :=
  match net url with
  | some size => (FS.set fs filepath size, true)
  | none =>
    (if (fs filepath).isSome then FS.erase fs filepath else fs, false)

/-- Destination filename derived from a model identifier, the fixed pattern
of the main loop. -/
def ggmlFilename (model_name : String) : String :=
  "ggml-" ++ model_name ++ "-q5_1.bin"

/-- Skip test of the main loop for one catalog entry: the destination file
exists and passes verify_file_size at the default tolerance. -/
def skipCheck (fs : FS) (model_name : String) (model_info : ModelInfo) : Bool :=
  (fs (ggmlFilename model_name)).isSome &&
    verify_file_size fs (ggmlFilename model_name) model_info.size_mb
      default_tolerance

/-- One iteration of the main loop for one catalog entry: skip when the
destination exists and verifies against the expected size with the default
tolerance, otherwise download.  Returns the new filesystem and the number
of network requests issued (0 on skip, 1 otherwise).  After a successful
download the script re-runs verify_file_size, but uses the result only to
choose between two print statements, so no further state changes occur. -/
def processModel (net : Net) (fs : FS) (model_name : String)
    (model_info : ModelInfo) : FS × Nat :=
  if skipCheck fs model_name model_info then
    (fs, 0)
  else
    ((download_file net fs model_info.ggml (ggmlFilename model_name)).1, 1)

/-- The main loop over the catalog, threading the filesystem and summing
the network request counts.  Download failure only prints and continues, so
a failed entry simply moves on to the next one. -/
def runLoop (net : Net) (fs : FS) : List (String × ModelInfo) → FS × Nat
  | [] => (fs, 0)
  | e :: rest =>
    let st := processModel net fs e.1 e.2
    let r := runLoop net st.1 rest
    (r.1, st.2 + r.2)

/-- One value of the manifest models mapping. -/
structure ManifestEntry where
  filename : String
  size_bytes : Nat
  size_mb : ℚ
  description : String
  format : String
deriving DecidableEq

/-- The manifest record written at the end of a run. -/
structure Manifest where
  models : List (String × ManifestEntry)
  created_at : String
  version : String
deriving DecidableEq

/-- Rounding of a rational to the nearest integer with ties to even, the
behaviour of the Python builtin round on these exactly representable
values. -/
def roundHalfEven (q : ℚ) : Int :=
  let f : Int := ⌊q⌋
  if q - f < 1 / 2 then f
  else if 1 / 2 < q - f then f + 1
  else if f % 2 = 0 then f else f + 1

/-- Rounding to one decimal place, modelling the Python call round(x, 1). -/
def pyRound1 (q : ℚ) : ℚ := (roundHalfEven (10 * q) : ℚ) / 10

/-- Manifest entry recorded for a model whose file is present with the
given byte size: filename, byte size, size in megabytes rounded to one
decimal place, catalog description and the fixed format tag. -/
def mkManifestEntry (model_name : String) (model_info : ModelInfo)
    (size : Nat) : ManifestEntry :=
  { filename := ggmlFilename model_name
    size_bytes := size
    size_mb := pyRound1 ((size : ℚ) / (1024 * 1024))
    description := model_info.description
    format := "ggml-q5_1" }

/-- The manifest models mapping built after the loop: one entry per catalog
model whose derived filename exists on disk at that moment, independent of
how the file came to exist. -/
def buildManifestModels (fs : FS) :
    List (String × ModelInfo) → List (String × ManifestEntry)
  | [] => []
  | (model_name, model_info) :: rest =>
    match fs (ggmlFilename model_name) with
    | some size =>
      (model_name, mkManifestEntry model_name model_info size)
        :: buildManifestModels fs rest
    | none => buildManifestModels fs rest

/-- The complete manifest: the models mapping from the current filesystem
plus the hardcoded creation timestamp string and version. -/
def buildManifest (fs : FS) : Manifest :=
  { models := buildManifestModels fs MODELS
    created_at := "2024-01-01T00:00:00Z"
    version := "1.0.0" }

/-- Observable outcome of one run of main: the final filesystem, the number
of network requests issued, the manifest written to disk, and the process
exit status. -/
structure RunResult where
  fs : FS
  requests : Nat
  manifest : Manifest
  exitCode : Nat

/-- Embedding of main: run the loop over the catalog, then build and write
the manifest from whatever files exist, then exit 1 when the manifest holds
zero models and 0 otherwise.  The manifest is written before the exit
decision is taken. -/
def main_run (net : Net) (fs0 : FS) : RunResult :=
  let st := runLoop net fs0 MODELS
  let manifest := buildManifest st.1
  { fs := st.1
    requests := st.2
    manifest := manifest
    exitCode := if manifest.models.length > 0 then 0 else 1 }

/-- Condition that every catalog entry has a destination file that exists
and passes verify_file_size at the default tolerance, exactly the per-entry
skip test of the main loop. -/
def allVerified (fs : FS) : Bool :=
  MODELS.all fun e => skipCheck fs e.1 e.2

/-- Sample network on which every catalog download succeeds with exactly
the expected number of bytes. -/
def netExact : Net := fun u =>
  if u = tiny_en.ggml then some (39 * 1048576)
  else if u = base_en.ggml then some (148 * 1048576)
  else if u = small_en.ggml then some (244 * 1048576)
  else none

/-- Sample network on which every request fails. -/
def netDown : Net := fun _ => none

/-- Sample network on which the base.en download fails and the other two
succeed with exactly the expected number of bytes. -/
def netNoBase : Net := fun u =>
  if u = tiny_en.ggml then some (39 * 1048576)
  else if u = small_en.ggml then some (244 * 1048576)
  else none

/-
Helper lemmas about the embedded operations, shared by the claim proofs.
-/

theorem FS.set_same (fs : FS) (p : String) (s : Nat) :
    FS.set fs p s p = some s := by
  simp [FS.set]

theorem FS.set_other (fs : FS) (p q : String) (s : Nat) (h : q ≠ p) :
    FS.set fs p s q = fs q := by
  simp [FS.set, h]

theorem FS.erase_same (fs : FS) (p : String) : FS.erase fs p p = none := by
  simp [FS.erase]

theorem FS.erase_other (fs : FS) (p q : String) (h : q ≠ p) :
    FS.erase fs p q = fs q := by
  simp [FS.erase, h]

theorem verify_file_size_congr (fs fs' : FS) (p : String) (E : Int) (t : ℚ)
    (h : fs p = fs' p) :
    verify_file_size fs p E t = verify_file_size fs' p E t := by
  unfold verify_file_size
  rw [h]

theorem verify_true_of (fs : FS) (p : String) (E : Int) (t : ℚ) (s : Nat)
    (h : fs p = some s)
    (h1 : (E : ℚ) * (1 - t) ≤ (s : ℚ) / (1024 * 1024))
    (h2 : (s : ℚ) / (1024 * 1024) ≤ (E : ℚ) * (1 + t)) :
    verify_file_size fs p E t = true := by
  unfold verify_file_size
  rw [h]
  exact decide_eq_true ⟨h1, h2⟩

theorem verify_false_of_low (fs : FS) (p : String) (E : Int) (t : ℚ) (s : Nat)
    (h : fs p = some s) (h1 : (s : ℚ) / (1024 * 1024) < (E : ℚ) * (1 - t)) :
    verify_file_size fs p E t = false := by
  unfold verify_file_size
  rw [h]
  simp only [decide_eq_false_iff_not]
  exact fun hc => absurd hc.1 (not_le.mpr h1)

theorem verify_false_of_high (fs : FS) (p : String) (E : Int) (t : ℚ) (s : Nat)
    (h : fs p = some s) (h2 : (E : ℚ) * (1 + t) < (s : ℚ) / (1024 * 1024)) :
    verify_file_size fs p E t = false := by
  unfold verify_file_size
  rw [h]
  simp only [decide_eq_false_iff_not]
  exact fun hc => absurd hc.2 (not_le.mpr h2)

theorem verify_false_of_missing (fs : FS) (p : String) (E : Int) (t : ℚ)
    (h : fs p = none) : verify_file_size fs p E t = false := by
  unfold verify_file_size
  rw [h]

theorem verify_true_iff (fs : FS) (p : String) (E : Int) (t : ℚ) :
    verify_file_size fs p E t = true ↔
      ∃ s : Nat, fs p = some s ∧
        (E : ℚ) * (1 - t) ≤ (s : ℚ) / (1024 * 1024) ∧
        (s : ℚ) / (1024 * 1024) ≤ (E : ℚ) * (1 + t) := by
  constructor
  · intro h
    unfold verify_file_size at h
    cases hp : fs p with
    | none => rw [hp] at h; cases h
    | some s =>
      rw [hp] at h
      simp only [decide_eq_true_eq] at h
      exact ⟨s, rfl, h.1, h.2⟩
  · rintro ⟨s, hp, h1, h2⟩
    exact verify_true_of fs p E t s hp h1 h2

theorem skipCheck_congr (fs fs' : FS) (n : String) (i : ModelInfo)
    (h : fs (ggmlFilename n) = fs' (ggmlFilename n)) :
    skipCheck fs n i = skipCheck fs' n i := by
  unfold skipCheck
  rw [verify_file_size_congr fs fs' (ggmlFilename n) i.size_mb default_tolerance h, h]

theorem download_file_success (net : Net) (fs : FS) (url p : String) (s : Nat)
    (h : net url = some s) :
    download_file net fs url p = (FS.set fs p s, true) := by
  unfold download_file
  rw [h]

theorem download_file_fail (net : Net) (fs : FS) (url p : String)
    (h : net url = none) :
    ((download_file net fs url p).1) p = none ∧
      (download_file net fs url p).2 = false := by
  unfold download_file
  rw [h]
  cases hp : fs p <;> simp [hp, FS.erase]

theorem download_file_fail_frame (net : Net) (fs : FS) (url p q : String)
    (h : net url = none) (hq : q ≠ p) :
    ((download_file net fs url p).1) q = fs q := by
  unfold download_file
  rw [h]
  cases hp : fs p <;> simp [hp, FS.erase, hq]

theorem processModel_skip (net : Net) (fs : FS) (n : String) (i : ModelInfo)
    (h : skipCheck fs n i = true) :
    processModel net fs n i = (fs, 0) := by
  unfold processModel
  rw [h]
  rfl

theorem processModel_download (net : Net) (fs : FS) (n : String)
    (i : ModelInfo) (s : Nat) (h : skipCheck fs n i = false)
    (hu : net i.ggml = some s) :
    processModel net fs n i = (FS.set fs (ggmlFilename n) s, 1) := by
  unfold processModel
  rw [h, download_file_success net fs i.ggml (ggmlFilename n) s hu]
  rfl

theorem processModel_fail (net : Net) (fs : FS) (n : String) (i : ModelInfo)
    (h : skipCheck fs n i = false) (hu : net i.ggml = none) :
    ((processModel net fs n i).1) (ggmlFilename n) = none ∧
      (processModel net fs n i).2 = 1 := by
  unfold processModel
  rw [h]
  exact ⟨(download_file_fail net fs i.ggml (ggmlFilename n) hu).1, rfl⟩

theorem processModel_frame (net : Net) (fs : FS) (n : String) (i : ModelInfo)
    (q : String) (h : q ≠ ggmlFilename n) :
    ((processModel net fs n i).1) q = fs q := by
  unfold processModel
  cases hc : skipCheck fs n i with
  | true => rfl
  | false =>
    show ((download_file net fs i.ggml (ggmlFilename n)).1) q = fs q
    cases hu : net i.ggml with
    | none => exact download_file_fail_frame net fs i.ggml (ggmlFilename n) q hu h
    | some s =>
      rw [download_file_success net fs i.ggml (ggmlFilename n) s hu]
      exact FS.set_other fs (ggmlFilename n) q s h

theorem runLoop_cons (net : Net) (fs : FS) (e : String × ModelInfo)
    (rest : List (String × ModelInfo)) :
    runLoop net fs (e :: rest) =
      ((runLoop net ((processModel net fs e.1 e.2).1) rest).1,
        (processModel net fs e.1 e.2).2 +
          (runLoop net ((processModel net fs e.1 e.2).1) rest).2) := rfl

theorem runLoop_frame (net : Net) (q : String)
    (cat : List (String × ModelInfo)) :
    ∀ fs : FS, (∀ e ∈ cat, q ≠ ggmlFilename e.1) →
      ((runLoop net fs cat).1) q = fs q := by
  induction cat with
  | nil => intro fs _; rfl
  | cons e rest ih =>
    intro fs h
    rw [runLoop_cons]
    have h1 : q ≠ ggmlFilename e.1 := h e (List.mem_cons_self e rest)
    have h2 : ∀ x ∈ rest, q ≠ ggmlFilename x.1 :=
      fun x hx => h x (List.mem_cons_of_mem e hx)
    calc ((runLoop net ((processModel net fs e.1 e.2).1) rest).1) q
        = ((processModel net fs e.1 e.2).1) q := ih _ h2
      _ = fs q := processModel_frame net fs e.1 e.2 q h1

theorem runLoop_all_skip (net : Net) (cat : List (String × ModelInfo)) :
    ∀ fs : FS, (∀ e ∈ cat, skipCheck fs e.1 e.2 = true) →
      runLoop net fs cat = (fs, 0) := by
  induction cat with
  | nil => intro fs _; rfl
  | cons e rest ih =>
    intro fs h
    rw [runLoop_cons, processModel_skip net fs e.1 e.2 (h e (List.mem_cons_self e rest))]
    rw [ih fs (fun x hx => h x (List.mem_cons_of_mem e hx))]
    rfl

theorem mem_manifest_of_file (fs : FS) (name : String) (info : ModelInfo)
    (s : Nat) (cat : List (String × ModelInfo)) (hmem : (name, info) ∈ cat)
    (hfs : fs (ggmlFilename name) = some s) :
    (name, mkManifestEntry name info s) ∈ buildManifestModels fs cat := by
  induction cat with
  | nil => cases hmem
  | cons e rest ih =>
    obtain ⟨n, i⟩ := e
    rcases List.mem_cons.mp hmem with he | hr
    · rw [(Prod.mk.injEq _ _ _ _).mp he.symm |>.1, (Prod.mk.injEq _ _ _ _).mp he.symm |>.2]
      unfold buildManifestModels
      rw [hfs]
      exact List.mem_cons_self _ _
    · unfold buildManifestModels
      cases hn : fs (ggmlFilename n) with
      | none => exact ih hr
      | some sz => exact List.mem_cons_of_mem _ (ih hr)

theorem not_mem_manifest_of_no_file (fs : FS) (name : String)
    (cat : List (String × ModelInfo)) (hfs : fs (ggmlFilename name) = none) :
    ∀ e : ManifestEntry, (name, e) ∉ buildManifestModels fs cat := by
  induction cat with
  | nil => intro e h; cases h
  | cons c rest ih =>
    obtain ⟨n, i⟩ := c
    intro e h
    unfold buildManifestModels at h
    cases hn : fs (ggmlFilename n) with
    | none =>
      rw [hn] at h
      exact ih e h
    | some sz =>
      rw [hn] at h
      rcases List.mem_cons.mp h with he | hr
      · have hnn : name = n := ((Prod.mk.injEq _ _ _ _).mp he).1
        rw [hnn] at hfs
        rw [hfs] at hn
        cases hn
      · exact ih e hr

theorem manifest_entry_spec (fs : FS) (cat : List (String × ModelInfo)) :
    ∀ (name : String) (e : ManifestEntry),
      (name, e) ∈ buildManifestModels fs cat →
      fs (ggmlFilename name) = some e.size_bytes ∧
        e.size_mb = pyRound1 ((e.size_bytes : ℚ) / (1024 * 1024)) := by
  induction cat with
  | nil => intro name e h; cases h
  | cons c rest ih =>
    obtain ⟨n, i⟩ := c
    intro name e h
    unfold buildManifestModels at h
    cases hn : fs (ggmlFilename n) with
    | none =>
      rw [hn] at h
      exact ih name e h
    | some sz =>
      rw [hn] at h
      rcases List.mem_cons.mp h with he | hr
      · have hnn : name = n := ((Prod.mk.injEq _ _ _ _).mp he).1
        have hee : e = mkManifestEntry n i sz := ((Prod.mk.injEq _ _ _ _).mp he).2
        subst hnn
        subst hee
        exact ⟨hn, rfl⟩
      · exact ih name e hr

/-
Claims.
-/

/-- C1: verify_file_size returns true iff the file exists and its size in
megabytes lies in the closed interval between E*(1-t) and E*(1+t); an
existing file of exactly E megabytes verifies true for every nonnegative
tolerance; a file of size E*(1+t+eps) megabytes with eps positive verifies
false for every positive expected size; a missing path verifies false.
The frozen claim asserts the E*(1+t+eps) conjunct for every expected size,
which fails at E = 0 (see the counterexample), so that conjunct is
restricted here to 0 < E. -/
theorem C1_verify_interval :
    (∀ (fs : FS) (p : String) (E : Int) (t : ℚ),
        verify_file_size fs p E t = true ↔
          ∃ s : Nat, fs p = some s ∧
            (E : ℚ) * (1 - t) ≤ (s : ℚ) / (1024 * 1024) ∧
            (s : ℚ) / (1024 * 1024) ≤ (E : ℚ) * (1 + t)) ∧
    (∀ (fs : FS) (p : String) (E : Int) (t : ℚ) (s : Nat),
        0 ≤ t → (s : ℚ) = (E : ℚ) * (1024 * 1024) → fs p = some s →
        verify_file_size fs p E t = true) ∧
    (∀ (fs : FS) (p : String) (E : Int) (t ε : ℚ) (s : Nat),
        0 < E → 0 < ε → (s : ℚ) = (E : ℚ) * (1 + t + ε) * (1024 * 1024) →
        fs p = some s → verify_file_size fs p E t = false) ∧
    (∀ (fs : FS) (p : String) (E : Int) (t : ℚ),
        fs p = none → verify_file_size fs p E t = false) := by
  refine ⟨verify_true_iff, ?_, ?_, verify_false_of_missing⟩
  · intro fs p E t s ht hs hp
    have hE0 : (0 : ℚ) ≤ (E : ℚ) := by
      have h0 : (0 : ℚ) ≤ (s : ℚ) := Nat.cast_nonneg s
      nlinarith [hs]
    have hdiv : (s : ℚ) / (1024 * 1024) = (E : ℚ) := by
      rw [hs, mul_div_assoc]
      norm_num
    apply verify_true_of fs p E t s hp
    · rw [hdiv]
      nlinarith [mul_nonneg hE0 ht]
    · rw [hdiv]
      nlinarith [mul_nonneg hE0 ht]
  · intro fs p E t ε s hE hε hs hp
    have hEQ : (0 : ℚ) < (E : ℚ) := by exact_mod_cast hE
    have hdiv : (s : ℚ) / (1024 * 1024) = (E : ℚ) * (1 + t + ε) := by
      rw [hs, mul_div_assoc]
      norm_num
    apply verify_false_of_high fs p E t s hp
    rw [hdiv]
    nlinarith [mul_pos hEQ hε]

/-- C1 witness: a 39 MB file at expected size 39 verifies true; a file of
size 39*(1 + 1/10 + 9/10) = 78 megabytes verifies false; a missing path
verifies false. -/
theorem C1_witness :
    verify_file_size (FS.set FS.empty "a.bin" (39 * 1048576)) "a.bin" 39
        (1 / 10) = true ∧
    verify_file_size (FS.set FS.empty "b.bin" (78 * 1048576)) "b.bin" 39
        (1 / 10) = false ∧
    verify_file_size FS.empty "c.bin" 39 (1 / 10) = false := by
  refine ⟨?_, ?_, ?_⟩
  · exact C1_verify_interval.2.1 _ _ 39 (1 / 10) (39 * 1048576)
      (by norm_num) (by norm_num) (FS.set_same _ _ _)
  · exact C1_verify_interval.2.2.1 _ _ 39 (1 / 10) (9 / 10) (78 * 1048576)
      (by norm_num) (by norm_num) (by norm_num) (FS.set_same _ _ _)
  · exact C1_verify_interval.2.2.2 _ _ 39 (1 / 10) rfl

/-- C1 counterexample: with expected size 0, tolerance 1/10 and eps = 1, a
file of size 0*(1 + 1/10 + 1) megabytes, that is 0 bytes, exists at the
path, yet verify_file_size returns true where the frozen claim requires
false. -/
theorem C1_counterexample :
    ((0 : ℚ) = ((0 : Int) : ℚ) * (1 + 1 / 10 + 1) * (1024 * 1024)) ∧
    verify_file_size (FS.set FS.empty "z.bin" 0) "z.bin" 0 (1 / 10) = true := by
  constructor
  · norm_num
  · exact verify_true_of _ _ _ _ 0 (FS.set_same _ _ _) (by norm_num) (by norm_num)

/-- C2: a missing file always fails verification, and a zero-byte file
fails verification whenever the lower tolerance bound E*(1-t) is positive,
in particular for every positive expected size at the default tolerance.
The frozen claim also requires failure of a zero-byte file at expected
size 0, which is false (see the counterexample), so the zero-byte conjunct
carries the positivity hypothesis. -/
theorem C2_zero_or_missing :
    (∀ (fs : FS) (p : String) (E : Int) (t : ℚ),
        fs p = none → verify_file_size fs p E t = false) ∧
    (∀ (fs : FS) (p : String) (E : Int) (t : ℚ),
        fs p = some 0 → 0 < (E : ℚ) * (1 - t) →
        verify_file_size fs p E t = false) := by
  refine ⟨verify_false_of_missing, ?_⟩
  intro fs p E t hp hpos
  apply verify_false_of_low fs p E t 0 hp
  simpa using hpos

/-- C2 witness: at the catalog size 148 with the default tolerance, a
missing file and a zero-byte file both fail verification. -/
theorem C2_witness :
    verify_file_size FS.empty "x.bin" 148 default_tolerance = false ∧
    verify_file_size (FS.set FS.empty "y.bin" 0) "y.bin" 148
      default_tolerance = false := by
  refine ⟨C2_zero_or_missing.1 _ _ 148 default_tolerance rfl, ?_⟩
  exact C2_zero_or_missing.2 _ _ 148 default_tolerance (FS.set_same _ _ _)
    (by norm_num [default_tolerance])

/-- C2 counterexample: a zero-byte file with expected size 0 at the
default tolerance verifies true, where the frozen claim requires false for
every expected size including 0. -/
theorem C2_counterexample :
    verify_file_size (FS.set FS.empty "m.bin" 0) "m.bin" 0
      default_tolerance = true := by
  exact verify_true_of _ _ _ _ 0 (FS.set_same _ _ _)
    (by norm_num [default_tolerance]) (by norm_num [default_tolerance])

/-- C6: when the GET fails, download_file returns the failure result false
rather than raising, and afterwards no file remains at the destination
path: any partially written file has been removed. -/
theorem C6_fail_no_partial :
    ∀ (net : Net) (fs : FS) (url p : String),
      net url = none →
      (download_file net fs url p).2 = false ∧
      ((download_file net fs url p).1) p = none := by
  intro net fs url p h
  exact ⟨(download_file_fail net fs url p h).2,
    (download_file_fail net fs url p h).1⟩

/-- C6 witness: with a dead network and a half-written 7-byte file at the
destination, the fetch returns false and the destination holds no file. -/
theorem C6_witness :
    (download_file netDown (FS.set FS.empty "d.bin" 7) "u" "d.bin").2 =
      false ∧
    ((download_file netDown (FS.set FS.empty "d.bin" 7) "u" "d.bin").1)
      "d.bin" = none :=
  C6_fail_no_partial netDown (FS.set FS.empty "d.bin" 7) "u" "d.bin" rfl

/-- C9 amended: the created_at field of the manifest is the fixed string
2024-01-01T00:00:00Z on every run; it does not record the time the run was
performed. -/
theorem C9_created_at_constant :
    ∀ (net : Net) (fs0 : FS),
      (main_run net fs0).manifest.created_at = "2024-01-01T00:00:00Z" := by
  intro net fs0
  rfl

/-- C9 counterexample: two runs with entirely different outcomes (standing
for runs performed at different times; the program never reads a clock)
produce identical created_at values, refuting the claim that runs at
different times produce different created_at values each equal to the run
time. -/
theorem C9_counterexample :
    (main_run netDown FS.empty).manifest.created_at =
      (main_run netExact FS.empty).manifest.created_at := rfl

/-- C5: the run exits with status 1 exactly when the manifest holds zero
model entries and with status 0 exactly when it holds at least one; in
both cases the manifest recorded by the run is the one built from the
final filesystem, so a zero-entry manifest is still produced before the
exit. -/
theorem C5_exit_policy :
    ∀ (net : Net) (fs0 : FS),
      (main_run net fs0).manifest = buildManifest ((main_run net fs0).fs) ∧
      ((main_run net fs0).exitCode = 1 ↔
        (main_run net fs0).manifest.models = []) ∧
      ((main_run net fs0).exitCode = 0 ↔
        (main_run net fs0).manifest.models ≠ []) := by
  intro net fs0
  have h : (main_run net fs0).exitCode =
      if (main_run net fs0).manifest.models.length > 0 then 0 else 1 := rfl
  refine ⟨rfl, ?_, ?_⟩
  · rw [h]
    cases hm : (main_run net fs0).manifest.models with
    | nil => simp
    | cons a l => simp
  · rw [h]
    cases hm : (main_run net fs0).manifest.models with
    | nil => simp
    | cons a l => simp

/-- C5 witness: with a dead network and an empty disk the manifest holds
zero entries and the exit status is 1, and the manifest is still the one
built from the final filesystem. -/
theorem C5_witness :
    (main_run netDown FS.empty).exitCode = 1 ∧
    (main_run netDown FS.empty).manifest.models = [] ∧
    (main_run netDown FS.empty).manifest =
      buildManifest ((main_run netDown FS.empty).fs) :=
  ⟨((C5_exit_policy netDown FS.empty).2.1).mpr rfl, rfl,
    (C5_exit_policy netDown FS.empty).1⟩

/-- C8: every entry of the written manifest has size_mb equal to its
size_bytes divided by 1048576 and rounded to one decimal place, and
size_bytes is the on-disk byte size of the entry's file. -/
theorem C8_size_mb_rounded :
    ∀ (fs : FS) (name : String) (e : ManifestEntry),
      (name, e) ∈ (buildManifest fs).models →
      e.size_mb = pyRound1 ((e.size_bytes : ℚ) / (1024 * 1024)) ∧
      fs (ggmlFilename name) = some e.size_bytes := by
  intro fs name e h
  have hspec := manifest_entry_spec fs MODELS name e h
  exact ⟨hspec.2, hspec.1⟩

/-- C8 witness: a disk holding a 40894464-byte tiny.en file yields a
manifest entry whose size_mb is its size_bytes divided by 1048576 rounded
to one decimal place. -/
theorem C8_witness :
    ("tiny.en", mkManifestEntry "tiny.en" tiny_en 40894464) ∈
      (buildManifest
        (FS.set FS.empty (ggmlFilename "tiny.en") 40894464)).models ∧
    (mkManifestEntry "tiny.en" tiny_en 40894464).size_mb =
      pyRound1
        (((mkManifestEntry "tiny.en" tiny_en 40894464).size_bytes : ℚ) /
          (1024 * 1024)) := by
  have hmem0 : ("tiny.en", mkManifestEntry "tiny.en" tiny_en 40894464) ∈
      buildManifestModels
        (FS.set FS.empty (ggmlFilename "tiny.en") 40894464) MODELS :=
    mem_manifest_of_file (FS.set FS.empty (ggmlFilename "tiny.en") 40894464)
      "tiny.en" tiny_en 40894464 MODELS (by simp [ MODELS])
      (FS.set_same _ _ _)
  have hmem : ("tiny.en", mkManifestEntry "tiny.en" tiny_en 40894464) ∈
      (buildManifest
        (FS.set FS.empty (ggmlFilename "tiny.en") 40894464)).models := hmem0
  exact ⟨hmem, (C8_size_mb_rounded _ _ _ hmem).1⟩

/-- C3: if after one run every catalog entry's destination file exists and
passes the Size Verifier against that entry's expected size, then a second
run issues zero network requests: every entry passes the existence plus
verification check and fetching is skipped. -/
theorem C3_idempotent :
    ∀ (net1 net2 : Net) (fs0 : FS),
      allVerified ((main_run net1 fs0).fs) = true →
      (main_run net2 ((main_run net1 fs0).fs)).requests = 0 := by
  intro net1 net2 fs0 h
  have hall : ∀ e ∈ MODELS,
      skipCheck ((main_run net1 fs0).fs) e.1 e.2 = true := by
    intro e he
    exact List.all_eq_true.mp h e he
  have hloop := runLoop_all_skip net2 MODELS ((main_run net1 fs0).fs) hall
  show (runLoop net2 ((main_run net1 fs0).fs) MODELS).2 = 0
  rw [hloop]

/-- C3 witness: a first run from an empty disk on a network delivering
every model at exactly its expected size leaves all three entries present
and verified, and a second run over that state issues zero requests. -/
theorem C3_witness :
    allVerified ((main_run netExact FS.empty).fs) = true ∧
    (main_run netExact ((main_run netExact FS.empty).fs)).requests = 0 := by
  have l1 : ((main_run netExact FS.empty).fs) (ggmlFilename "tiny.en") =
      some (39 * 1048576) := rfl
  have l2 : ((main_run netExact FS.empty).fs) (ggmlFilename "base.en") =
      some (148 * 1048576) := rfl
  have l3 : ((main_run netExact FS.empty).fs) (ggmlFilename "small.en") =
      some (244 * 1048576) := rfl
  have hv1 : verify_file_size ((main_run netExact FS.empty).fs)
      (ggmlFilename "tiny.en") tiny_en.size_mb default_tolerance = true :=
    verify_true_of _ _ _ _ _ l1 (by norm_num [tiny_en, default_tolerance])
      (by norm_num [tiny_en, default_tolerance])
  have hv2 : verify_file_size ((main_run netExact FS.empty).fs)
      (ggmlFilename "base.en") base_en.size_mb default_tolerance = true :=
    verify_true_of _ _ _ _ _ l2 (by norm_num [base_en, default_tolerance])
      (by norm_num [base_en, default_tolerance])
  have hv3 : verify_file_size ((main_run netExact FS.empty).fs)
      (ggmlFilename "small.en") small_en.size_mb default_tolerance = true :=
    verify_true_of _ _ _ _ _ l3 (by norm_num [small_en, default_tolerance])
      (by norm_num [small_en, default_tolerance])
  have h1 : skipCheck ((main_run netExact FS.empty).fs) "tiny.en" tiny_en
      = true := by
    unfold skipCheck
    rw [l1, hv1]
    rfl
  have h2 : skipCheck ((main_run netExact FS.empty).fs) "base.en" base_en
      = true := by
    unfold skipCheck
    rw [l2, hv2]
    rfl
  have h3 : skipCheck ((main_run netExact FS.empty).fs) "small.en" small_en
      = true := by
    unfold skipCheck
    rw [l3, hv3]
    rfl
  have hall : allVerified ((main_run netExact FS.empty).fs) = true := by
    unfold allVerified
    rw [show MODELS =
      [("tiny.en", tiny_en), ("base.en", base_en), ("small.en", small_en)]
      from rfl]
    simp only [List.all_cons, List.all_nil, h1, h2, h3]
    rfl
  exact ⟨hall, C3_idempotent netExact netExact FS.empty hall⟩

theorem processModel_fresh_lookup (net : Net) (fs : FS) (n : String)
    (i : ModelInfo) (h : fs (ggmlFilename n) = none) :
    ((processModel net fs n i).1) (ggmlFilename n) = net i.ggml := by
  have hsk : skipCheck fs n i = false := by
    unfold skipCheck
    rw [h]
    rfl
  cases hu : net i.ggml with
  | some s =>
    rw [processModel_download net fs n i s hsk hu]
    exact FS.set_same fs (ggmlFilename n) s
  | none =>
    exact (processModel_fail net fs n i hsk hu).1

theorem run_empty_lookups (net : Net) :
    ((main_run net FS.empty).fs) (ggmlFilename "tiny.en") =
      net tiny_en.ggml ∧
    ((main_run net FS.empty).fs) (ggmlFilename "base.en") =
      net base_en.ggml ∧
    ((main_run net FS.empty).fs) (ggmlFilename "small.en") =
      net small_en.ggml := by
  have hne21 : ggmlFilename "base.en" ≠ ggmlFilename "tiny.en" := by decide
  have hne31 : ggmlFilename "small.en" ≠ ggmlFilename "tiny.en" := by decide
  have hne12 : ggmlFilename "tiny.en" ≠ ggmlFilename "base.en" := by decide
  have hne32 : ggmlFilename "small.en" ≠ ggmlFilename "base.en" := by decide
  have hne13 : ggmlFilename "tiny.en" ≠ ggmlFilename "small.en" := by decide
  have hne23 : ggmlFilename "base.en" ≠ ggmlFilename "small.en" := by decide
  refine ⟨?_, ?_, ?_⟩
  · show (processModel net
        ((processModel net ((processModel net FS.empty "tiny.en" tiny_en).1)
          "base.en" base_en).1)
        "small.en" small_en).1 (ggmlFilename "tiny.en") = net tiny_en.ggml
    rw [processModel_frame net _ "small.en" small_en _ hne13]
    rw [processModel_frame net _ "base.en" base_en _ hne12]
    exact processModel_fresh_lookup net FS.empty "tiny.en" tiny_en rfl
  · show (processModel net
        ((processModel net ((processModel net FS.empty "tiny.en" tiny_en).1)
          "base.en" base_en).1)
        "small.en" small_en).1 (ggmlFilename "base.en") = net base_en.ggml
    rw [processModel_frame net _ "small.en" small_en _ hne23]
    exact processModel_fresh_lookup net _ "base.en" base_en
      ((processModel_frame net FS.empty "tiny.en" tiny_en _ hne21).trans rfl)
  · show (processModel net
        ((processModel net ((processModel net FS.empty "tiny.en" tiny_en).1)
          "base.en" base_en).1)
        "small.en" small_en).1 (ggmlFilename "small.en") = net small_en.ggml
    exact processModel_fresh_lookup net _ "small.en" small_en
      ((processModel_frame net _ "base.en" base_en _ hne32).trans
        ((processModel_frame net FS.empty "tiny.en" tiny_en _ hne31).trans
          rfl))

/-- C4: a catalog entry appears in the written manifest iff a file with
its derived filename exists on disk when the manifest is built, regardless
of how fetch or verification went during the run; and for each way exactly
one of the three entries can fail to download from an empty disk while the
other two succeed, the manifest holds exactly the two successful entries
and the exit status is 0. -/
theorem C4_manifest_from_disk :
    (∀ (net : Net) (fs0 : FS) (name : String) (info : ModelInfo),
        (name, info) ∈ MODELS →
        ((∃ e, (name, e) ∈ (main_run net fs0).manifest.models) ↔
          (((main_run net fs0).fs) (ggmlFilename name)).isSome = true)) ∧
    (∀ (net : Net) (s2 s3 : Nat),
        net tiny_en.ggml = none → net base_en.ggml = some s2 →
        net small_en.ggml = some s3 →
        (main_run net FS.empty).manifest.models.map Prod.fst =
          ["base.en", "small.en"] ∧
        (main_run net FS.empty).exitCode = 0) ∧
    (∀ (net : Net) (s1 s3 : Nat),
        net tiny_en.ggml = some s1 → net base_en.ggml = none →
        net small_en.ggml = some s3 →
        (main_run net FS.empty).manifest.models.map Prod.fst =
          ["tiny.en", "small.en"] ∧
        (main_run net FS.empty).exitCode = 0) ∧
    (∀ (net : Net) (s1 s2 : Nat),
        net tiny_en.ggml = some s1 → net base_en.ggml = some s2 →
        net small_en.ggml = none →
        (main_run net FS.empty).manifest.models.map Prod.fst =
          ["tiny.en", "base.en"] ∧
        (main_run net FS.empty).exitCode = 0) := by
  refine ⟨?_, ?_, ?_, ?_⟩
  · intro net fs0 name info hmem
    constructor
    · rintro ⟨e, he⟩
      have hspec := manifest_entry_spec ((main_run net fs0).fs) MODELS name e he
      rw [hspec.1]
      rfl
    · intro h
      cases hl : ((main_run net fs0).fs) (ggmlFilename name) with
      | none => rw [hl] at h; cases h
      | some s =>
        exact ⟨mkManifestEntry name info s,
          mem_manifest_of_file ((main_run net fs0).fs) name info s MODELS
            hmem hl⟩
  · intro net s2 s3 h1 h2 h3
    obtain ⟨l1, l2, l3⟩ := run_empty_lookups net
    rw [h1] at l1
    rw [h2] at l2
    rw [h3] at l3
    have hman : (main_run net FS.empty).manifest.models =
        [("base.en", mkManifestEntry "base.en" base_en s2),
         ("small.en", mkManifestEntry "small.en" small_en s3)] := by
      show buildManifestModels ((main_run net FS.empty).fs) MODELS = _
      rw [show MODELS =
        [("tiny.en", tiny_en), ("base.en", base_en), ("small.en", small_en)]
        from rfl]
      simp only [buildManifestModels, l1, l2, l3]
    constructor
    · rw [hman]
      rfl
    · have he : (main_run net FS.empty).exitCode =
          if (main_run net FS.empty).manifest.models.length > 0 then 0
          else 1 := rfl
      rw [he, hman]
      rfl
  · intro net s1 s3 h1 h2 h3
    obtain ⟨l1, l2, l3⟩ := run_empty_lookups net
    rw [h1] at l1
    rw [h2] at l2
    rw [h3] at l3
    have hman : (main_run net FS.empty).manifest.models =
        [("tiny.en", mkManifestEntry "tiny.en" tiny_en s1),
         ("small.en", mkManifestEntry "small.en" small_en s3)] := by
      show buildManifestModels ((main_run net FS.empty).fs) MODELS = _
      rw [show MODELS =
        [("tiny.en", tiny_en), ("base.en", base_en), ("small.en", small_en)]
        from rfl]
      simp only [buildManifestModels, l1, l2, l3]
    constructor
    · rw [hman]
      rfl
    · have he : (main_run net FS.empty).exitCode =
          if (main_run net FS.empty).manifest.models.length > 0 then 0
          else 1 := rfl
      rw [he, hman]
      rfl
  · intro net s1 s2 h1 h2 h3
    obtain ⟨l1, l2, l3⟩ := run_empty_lookups net
    rw [h1] at l1
    rw [h2] at l2
    rw [h3] at l3
    have hman : (main_run net FS.empty).manifest.models =
        [("tiny.en", mkManifestEntry "tiny.en" tiny_en s1),
         ("base.en", mkManifestEntry "base.en" base_en s2)] := by
      show buildManifestModels ((main_run net FS.empty).fs) MODELS = _
      rw [show MODELS =
        [("tiny.en", tiny_en), ("base.en", base_en), ("small.en", small_en)]
        from rfl]
      simp only [buildManifestModels, l1, l2, l3]
    constructor
    · rw [hman]
      rfl
    · have he : (main_run net FS.empty).exitCode =
          if (main_run net FS.empty).manifest.models.length > 0 then 0
          else 1 := rfl
      rw [he, hman]
      rfl

/-- C4 witness: on a network where exactly the base.en download fails, the
tiny.en entry is in the manifest iff its file exists (it does), the
manifest holds exactly tiny.en and small.en, and the exit status is 0. -/
theorem C4_witness :
    ((∃ e, ("tiny.en", e) ∈ (main_run netNoBase FS.empty).manifest.models) ↔
      (((main_run netNoBase FS.empty).fs)
        (ggmlFilename "tiny.en")).isSome = true) ∧
    (main_run netNoBase FS.empty).manifest.models.map Prod.fst =
      ["tiny.en", "small.en"] ∧
    (main_run netNoBase FS.empty).exitCode = 0 := by
  refine ⟨C4_manifest_from_disk.1 netNoBase FS.empty "tiny.en" tiny_en
    (by simp [ MODELS]), ?_, ?_⟩
  · exact (C4_manifest_from_disk.2.2.1 netNoBase (39 * 1048576)
      (244 * 1048576) rfl rfl rfl).1
  · exact (C4_manifest_from_disk.2.2.1 netNoBase (39 * 1048576)
      (244 * 1048576) rfl rfl rfl).2

/-- C7: for each catalog entry, when the entry is not skipped, its fetch
succeeds with some size s, and the subsequent size verification of the
downloaded file fails, the run still ends with the downloaded file on disk
at the entry's path with size s, and the entry is in the written manifest;
the verification outcome changes nothing but the log line. -/
theorem C7_unverified_file_kept :
    (∀ (net : Net) (fs0 : FS) (s : Nat),
        skipCheck fs0 "tiny.en" tiny_en = false →
        net tiny_en.ggml = some s →
        verify_file_size (FS.set fs0 (ggmlFilename "tiny.en") s)
          (ggmlFilename "tiny.en") tiny_en.size_mb default_tolerance =
          false →
        ((main_run net fs0).fs) (ggmlFilename "tiny.en") = some s ∧
        ("tiny.en", mkManifestEntry "tiny.en" tiny_en s) ∈
          (main_run net fs0).manifest.models) ∧
    (∀ (net : Net) (fs0 : FS) (s : Nat),
        skipCheck fs0 "base.en" base_en = false →
        net base_en.ggml = some s →
        verify_file_size (FS.set fs0 (ggmlFilename "base.en") s)
          (ggmlFilename "base.en") base_en.size_mb default_tolerance =
          false →
        ((main_run net fs0).fs) (ggmlFilename "base.en") = some s ∧
        ("base.en", mkManifestEntry "base.en" base_en s) ∈
          (main_run net fs0).manifest.models) ∧
    (∀ (net : Net) (fs0 : FS) (s : Nat),
        skipCheck fs0 "small.en" small_en = false →
        net small_en.ggml = some s →
        verify_file_size (FS.set fs0 (ggmlFilename "small.en") s)
          (ggmlFilename "small.en") small_en.size_mb default_tolerance =
          false →
        ((main_run net fs0).fs) (ggmlFilename "small.en") = some s ∧
        ("small.en", mkManifestEntry "small.en" small_en s) ∈
          (main_run net fs0).manifest.models) := by
  refine ⟨?_, ?_, ?_⟩
  · intro net fs0 s hsk hnet _hver
    have hst1 : processModel net fs0 "tiny.en" tiny_en =
        (FS.set fs0 (ggmlFilename "tiny.en") s, 1) :=
      processModel_download net fs0 "tiny.en" tiny_en s hsk hnet
    have hlook : ((main_run net fs0).fs) (ggmlFilename "tiny.en") =
        some s := by
      show (processModel net
          ((processModel net ((processModel net fs0 "tiny.en" tiny_en).1)
            "base.en" base_en).1)
          "small.en" small_en).1 (ggmlFilename "tiny.en") = some s
      rw [processModel_frame net _ "small.en" small_en _
        (by decide : ggmlFilename "tiny.en" ≠ ggmlFilename "small.en")]
      rw [processModel_frame net _ "base.en" base_en _
        (by decide : ggmlFilename "tiny.en" ≠ ggmlFilename "base.en")]
      rw [hst1]
      exact FS.set_same fs0 (ggmlFilename "tiny.en") s
    exact ⟨hlook, mem_manifest_of_file ((main_run net fs0).fs) "tiny.en"
      tiny_en s MODELS (by simp [ MODELS]) hlook⟩
  · intro net fs0 s hsk hnet _hver
    have hsk1 : skipCheck ((processModel net fs0 "tiny.en" tiny_en).1)
        "base.en" base_en = false :=
      (skipCheck_congr _ fs0 "base.en" base_en
        (processModel_frame net fs0 "tiny.en" tiny_en _
          (by decide : ggmlFilename "base.en" ≠ ggmlFilename "tiny.en"))).trans
        hsk
    have hst2 : processModel net ((processModel net fs0 "tiny.en" tiny_en).1)
        "base.en" base_en =
        (FS.set ((processModel net fs0 "tiny.en" tiny_en).1)
          (ggmlFilename "base.en") s, 1) :=
      processModel_download net _ "base.en" base_en s hsk1 hnet
    have hlook : ((main_run net fs0).fs) (ggmlFilename "base.en") =
        some s := by
      show (processModel net
          ((processModel net ((processModel net fs0 "tiny.en" tiny_en).1)
            "base.en" base_en).1)
          "small.en" small_en).1 (ggmlFilename "base.en") = some s
      rw [processModel_frame net _ "small.en" small_en _
        (by decide : ggmlFilename "base.en" ≠ ggmlFilename "small.en")]
      rw [hst2]
      exact FS.set_same ((processModel net fs0 "tiny.en" tiny_en).1)
        (ggmlFilename "base.en") s
    exact ⟨hlook, mem_manifest_of_file ((main_run net fs0).fs) "base.en"
      base_en s MODELS (by simp [ MODELS]) hlook⟩
  · intro net fs0 s hsk hnet _hver
    have hsk1 : skipCheck ((processModel net fs0 "tiny.en" tiny_en).1)
        "small.en" small_en = false :=
      (skipCheck_congr _ fs0 "small.en" small_en
        (processModel_frame net fs0 "tiny.en" tiny_en _
          (by decide : ggmlFilename "small.en" ≠ ggmlFilename "tiny.en"))).trans
        hsk
    have hsk2 : skipCheck
        ((processModel net ((processModel net fs0 "tiny.en" tiny_en).1)
          "base.en" base_en).1) "small.en" small_en = false :=
      (skipCheck_congr _ ((processModel net fs0 "tiny.en" tiny_en).1)
        "small.en" small_en
        (processModel_frame net _ "base.en" base_en _
          (by decide : ggmlFilename "small.en" ≠ ggmlFilename "base.en"))).trans
        hsk1
    have hst3 : processModel net
        ((processModel net ((processModel net fs0 "tiny.en" tiny_en).1)
          "base.en" base_en).1) "small.en" small_en =
        (FS.set ((processModel net ((processModel net fs0 "tiny.en"
          tiny_en).1) "base.en" base_en).1) (ggmlFilename "small.en") s,
          1) :=
      processModel_download net _ "small.en" small_en s hsk2 hnet
    have hlook : ((main_run net fs0).fs) (ggmlFilename "small.en") =
        some s := by
      show (processModel net
          ((processModel net ((processModel net fs0 "tiny.en" tiny_en).1)
            "base.en" base_en).1)
          "small.en" small_en).1 (ggmlFilename "small.en") = some s
      rw [hst3]
      exact FS.set_same
        ((processModel net ((processModel net fs0 "tiny.en" tiny_en).1)
          "base.en" base_en).1) (ggmlFilename "small.en") s
    exact ⟨hlook, mem_manifest_of_file ((main_run net fs0).fs) "small.en"
      small_en s MODELS (by simp [ MODELS]) hlook⟩

/-- C7 witness: from an empty disk, a network delivering a 1-byte tiny.en
file (which fails verification against 39 MB) still leaves that file on
disk after the run and records it in the manifest. -/
theorem C7_witness :
    verify_file_size (FS.set FS.empty (ggmlFilename "tiny.en") 1)
      (ggmlFilename "tiny.en") tiny_en.size_mb default_tolerance = false ∧
    ((main_run (fun u => if u = tiny_en.ggml then some 1 else none)
        FS.empty).fs) (ggmlFilename "tiny.en") = some 1 ∧
    ("tiny.en", mkManifestEntry "tiny.en" tiny_en 1) ∈
      (main_run (fun u => if u = tiny_en.ggml then some 1 else none)
        FS.empty).manifest.models := by
  have hver : verify_file_size (FS.set FS.empty (ggmlFilename "tiny.en") 1)
      (ggmlFilename "tiny.en") tiny_en.size_mb default_tolerance = false :=
    verify_false_of_low _ _ _ _ 1 (FS.set_same _ _ _)
      (by norm_num [tiny_en, default_tolerance])
  have h := C7_unverified_file_kept.1
    (fun u => if u = tiny_en.ggml then some 1 else none) FS.empty 1
    rfl rfl hver
  exact ⟨hver, h.1, h.2⟩

/-- C10: when the GET fails, download_file unlinks whatever file exists at
the destination path, including one present before the call; hence for each
catalog entry whose file is on disk but fails verification, a failed
re-download deletes the previously present file and the entry is absent
from the written manifest. -/
theorem C10_failed_redownload_deletes :
    (∀ (net : Net) (fs : FS) (url p : String),
        net url = none → (fs p).isSome = true →
        ((download_file net fs url p).1) p = none) ∧
    (∀ (net : Net) (fs0 : FS),
        (fs0 (ggmlFilename "tiny.en")).isSome = true →
        verify_file_size fs0 (ggmlFilename "tiny.en") tiny_en.size_mb
          default_tolerance = false →
        net tiny_en.ggml = none →
        ((main_run net fs0).fs) (ggmlFilename "tiny.en") = none ∧
        ∀ e, ("tiny.en", e) ∉ (main_run net fs0).manifest.models) ∧
    (∀ (net : Net) (fs0 : FS),
        (fs0 (ggmlFilename "base.en")).isSome = true →
        verify_file_size fs0 (ggmlFilename "base.en") base_en.size_mb
          default_tolerance = false →
        net base_en.ggml = none →
        ((main_run net fs0).fs) (ggmlFilename "base.en") = none ∧
        ∀ e, ("base.en", e) ∉ (main_run net fs0).manifest.models) ∧
    (∀ (net : Net) (fs0 : FS),
        (fs0 (ggmlFilename "small.en")).isSome = true →
        verify_file_size fs0 (ggmlFilename "small.en") small_en.size_mb
          default_tolerance = false →
        net small_en.ggml = none →
        ((main_run net fs0).fs) (ggmlFilename "small.en") = none ∧
        ∀ e, ("small.en", e) ∉ (main_run net fs0).manifest.models) := by
  refine ⟨?_, ?_, ?_, ?_⟩
  · intro net fs url p hn hs
    unfold download_file
    rw [hn, hs]
    show (FS.erase fs p) p = none
    exact FS.erase_same fs p
  · intro net fs0 hex hver hnet
    have hsk0 : skipCheck fs0 "tiny.en" tiny_en = false := by
      unfold skipCheck
      rw [hver]
      exact Bool.and_false _
    have hfail := processModel_fail net fs0 "tiny.en" tiny_en hsk0 hnet
    have hlook : ((main_run net fs0).fs) (ggmlFilename "tiny.en") =
        none := by
      show (processModel net
          ((processModel net ((processModel net fs0 "tiny.en" tiny_en).1)
            "base.en" base_en).1)
          "small.en" small_en).1 (ggmlFilename "tiny.en") = none
      rw [processModel_frame net _ "small.en" small_en _
        (by decide : ggmlFilename "tiny.en" ≠ ggmlFilename "small.en")]
      rw [processModel_frame net _ "base.en" base_en _
        (by decide : ggmlFilename "tiny.en" ≠ ggmlFilename "base.en")]
      exact hfail.1
    exact ⟨hlook, not_mem_manifest_of_no_file ((main_run net fs0).fs)
      "tiny.en" MODELS hlook⟩
  · intro net fs0 hex hver hnet
    have hsk0 : skipCheck fs0 "base.en" base_en = false := by
      unfold skipCheck
      rw [hver]
      exact Bool.and_false _
    have hsk1 : skipCheck ((processModel net fs0 "tiny.en" tiny_en).1)
        "base.en" base_en = false :=
      (skipCheck_congr _ fs0 "base.en" base_en
        (processModel_frame net fs0 "tiny.en" tiny_en _
          (by decide : ggmlFilename "base.en" ≠ ggmlFilename "tiny.en"))).trans
        hsk0
    have hfail := processModel_fail net
      ((processModel net fs0 "tiny.en" tiny_en).1) "base.en" base_en hsk1
      hnet
    have hlook : ((main_run net fs0).fs) (ggmlFilename "base.en") =
        none := by
      show (processModel net
          ((processModel net ((processModel net fs0 "tiny.en" tiny_en).1)
            "base.en" base_en).1)
          "small.en" small_en).1 (ggmlFilename "base.en") = none
      rw [processModel_frame net _ "small.en" small_en _
        (by decide : ggmlFilename "base.en" ≠ ggmlFilename "small.en")]
      exact hfail.1
    exact ⟨hlook, not_mem_manifest_of_no_file ((main_run net fs0).fs)
      "base.en" MODELS hlook⟩
  · intro net fs0 hex hver hnet
    have hsk0 : skipCheck fs0 "small.en" small_en = false := by
      unfold skipCheck
      rw [hver]
      exact Bool.and_false _
    have hsk1 : skipCheck ((processModel net fs0 "tiny.en" tiny_en).1)
        "small.en" small_en = false :=
      (skipCheck_congr _ fs0 "small.en" small_en
        (processModel_frame net fs0 "tiny.en" tiny_en _
          (by decide : ggmlFilename "small.en" ≠ ggmlFilename "tiny.en"))).trans
        hsk0
    have hsk2 : skipCheck
        ((processModel net ((processModel net fs0 "tiny.en" tiny_en).1)
          "base.en" base_en).1) "small.en" small_en = false :=
      (skipCheck_congr _ ((processModel net fs0 "tiny.en" tiny_en).1)
        "small.en" small_en
        (processModel_frame net _ "base.en" base_en _
          (by decide : ggmlFilename "small.en" ≠ ggmlFilename "base.en"))).trans
        hsk1
    have hfail := processModel_fail net
      ((processModel net ((processModel net fs0 "tiny.en" tiny_en).1)
        "base.en" base_en).1) "small.en" small_en hsk2 hnet
    have hlook : ((main_run net fs0).fs) (ggmlFilename "small.en") =
        none := by
      show (processModel net
          ((processModel net ((processModel net fs0 "tiny.en" tiny_en).1)
            "base.en" base_en).1)
          "small.en" small_en).1 (ggmlFilename "small.en") = none
      exact hfail.1
    exact ⟨hlook, not_mem_manifest_of_no_file ((main_run net fs0).fs)
      "small.en" MODELS hlook⟩

/-- C10 witness: a dead network unlinks a pre-existing 9-byte file at the
destination; and a 1-byte base.en file on disk (failing verification
against 148 MB) is deleted by the failed re-download and base.en is absent
from the manifest. -/
theorem C10_witness :
    ((download_file netDown (FS.set FS.empty "w.bin" 9) "u" "w.bin").1)
      "w.bin" = none ∧
    verify_file_size (FS.set FS.empty (ggmlFilename "base.en") 1)
      (ggmlFilename "base.en") base_en.size_mb default_tolerance = false ∧
    ((main_run netDown
        (FS.set FS.empty (ggmlFilename "base.en") 1)).fs)
      (ggmlFilename "base.en") = none ∧
    ∀ e, ("base.en", e) ∉
      (main_run netDown
        (FS.set FS.empty (ggmlFilename "base.en") 1)).manifest.models := by
  have hver : verify_file_size (FS.set FS.empty (ggmlFilename "base.en") 1)
      (ggmlFilename "base.en") base_en.size_mb default_tolerance = false :=
    verify_false_of_low _ _ _ _ 1 (FS.set_same _ _ _)
      (by norm_num [base_en, default_tolerance])
  have h := C10_failed_redownload_deletes.2.2.1 netDown
    (FS.set FS.empty (ggmlFilename "base.en") 1) rfl hver rfl
  exact ⟨C10_failed_redownload_deletes.1 netDown
    (FS.set FS.empty "w.bin" 9) "u" "w.bin" rfl rfl, hver, h.1, h.2⟩
